import Mathlib

/-!
Shallow embedding of qTox `src/core/toxcall.cpp` (call session lifecycle and
device resource ownership: `ToxCall`, `ToxFriendCall`, `ToxGroupCall`).

The device subscription service (`Audio`, `CameraSource`) and the timer
primitive (`QTimer`) live outside the provided sources; following the spec
they are external collaborators with reference-counted subscribe/unsubscribe
(spec section 6), so their state is modelled from the spec as explicit
counters and event logs.  The frame-forwarding connections to the outbound AV
dispatcher carry no device state and are not modelled.
-/

/-- Modelled from the spec: state of the external device subscription service
(audio input/output, camera) plus the count of alive video sinks.  `audioIn`
and `videoIn` are the reference counts of the shared input devices;
`subscribeOutput` hands out fresh playback channel handles starting at
`nextSource` (handle 0 is never handed out, it is the "no channel" sentinel);
`outAcq` and `outRel` log every output channel acquisition and release in
order, so "released exactly once" is a statement about `outRel`. -/
structure DevState where
  audioIn : Int
  videoIn : Int
  nextSource : Nat
  outAcq : List Nat
  outRel : List Nat
  sinks : Int
  cameraConfigured : Bool
  deriving DecidableEq

/-- Modelled from the spec: `Audio::subscribeInput` bumps the shared
audio-input reference count. -/
def DevState.subscribeInput (d : DevState) : DevState :=
  { d with audioIn := d.audioIn + 1 }

/-- Modelled from the spec: `Audio::unsubscribeInput` drops the shared
audio-input reference count. -/
def DevState.unsubscribeInput (d : DevState) : DevState :=
  { d with audioIn := d.audioIn - 1 }

/-- Modelled from the spec: `Audio::subscribeOutput(sourceId)` hands out a
fresh playback channel handle and records the acquisition. -/
def DevState.subscribeOutput (d : DevState) : DevState × Nat :=
  ({ d with nextSource := d.nextSource + 1, outAcq := d.outAcq ++ [d.nextSource] },
    d.nextSource)

/-- Modelled from the spec: `Audio::unsubscribeOutput(handle)` records the
release of a playback channel handle. -/
def DevState.unsubscribeOutput (d : DevState) (h : Nat) : DevState :=
  { d with outRel := d.outRel ++ [h] }

/-- Modelled from the spec: `CameraSource::subscribe` bumps the camera
reference count. -/
def DevState.cameraSubscribe (d : DevState) : DevState :=
  { d with videoIn := d.videoIn + 1 }

/-- Modelled from the spec: `CameraSource::unsubscribe` drops the camera
reference count. -/
def DevState.cameraUnsubscribe (d : DevState) : DevState :=
  { d with videoIn := d.videoIn - 1 }

/-- Modelled from the spec: `CameraSource::setupDefault` configures the
capture device; it does not change any subscription count. -/
def DevState.setupDefault (d : DevState) : DevState :=
  { d with cameraConfigured := true }

/-- Modelled from the spec: creation of a `CoreVideoSource` video sink. -/
def DevState.newSink (d : DevState) : DevState :=
  { d with sinks := d.sinks + 1 }

/-- Modelled from the spec: destruction of a video sink.  The sink is owned
by the session and destroyed with it (spec section 3); the destroying code
(the AV controller) is outside the provided sources. -/
def DevState.destroySink (d : DevState) : DevState :=
  { d with sinks := d.sinks - 1 }

/-- Common call session state from `ToxCall` (`toxcall.cpp` lines 31 to 102).
`hasVideoSource` records whether the `videoSource` pointer is non-null. -/
structure ToxCall where
  active : Bool := false
  muteMic : Bool := false
  muteVol : Bool := false
  videoEnabled : Bool
  nullVideoBitrate : Bool := false
  hasVideoSource : Bool := false
  deriving DecidableEq

/-- The base class destructor `ToxCall::~ToxCall` (lines 37 to 47):
disconnect the audio frame handler, release the audio-input subscription, and
if `videoEnabled` holds at destruction time (the current flag, not the
constructed one) disconnect the video frame handler and release the camera
subscription.  Sink destruction is modelled from the spec (the sink is
destroyed with the session; the deleting code is outside the provided
sources). -/
def ToxCall.destruct (c : ToxCall) (d : DevState) : DevState :=
  let d1 := d.unsubscribeInput
  let d2 := if c.videoEnabled then d1.cameraUnsubscribe else d1
  if c.hasVideoSource then d2.destroySink else d2

/-- Modelled from the spec: the `QTimer` owned by `ToxFriendCall`.  The
timeout connection is made once, at creation, capturing the call identity
(`boundId`); `activeTimer` is `QTimer::isActive`, true while counting down.
Per the spec (section 6) the timer fires once per start. -/
structure TimeoutTimer where
  boundId : Nat
  activeTimer : Bool
  deriving DecidableEq

/-- Peer-to-peer call state from `ToxFriendCall` (`toxcall.cpp` lines 104 to
188).  `alSource` is the dedicated output playback channel handle; `state` is
the remote party reported call state (the `TOXAV_FRIEND_CALL_STATE` bitmask,
modelled as a number). -/
structure ToxFriendCall extends ToxCall where
  alSource : Nat
  state : Nat := 0
  timeoutTimer : Option TimeoutTimer := none
  deriving DecidableEq

/-- The constructor `ToxFriendCall::ToxFriendCall` (lines 114 to 149):
subscribe the audio input, connect the audio frame handler, acquire a
dedicated output channel into `alSource`; if video is enabled, create a video
sink, configure the capture device if none is configured, subscribe to it and
connect the video frame handler.  The frame handlers forward to the external
dispatcher and carry no device state. -/
def ToxFriendCall.construct (videoEnabled : Bool) (d : DevState) :
    ToxFriendCall × DevState :=
  let d1 := d.subscribeInput
  let p := d1.subscribeOutput
  if videoEnabled then
    let d2 := p.1.newSink
    let d3 := if d2.cameraConfigured then d2 else d2.setupDefault
    let d4 := d3.cameraSubscribe
    ({ videoEnabled := true, hasVideoSource := true, alSource := p.2 }, d4)
  else
    ({ videoEnabled := false, hasVideoSource := false, alSource := p.2 }, p.1)

/-- The destructor `ToxFriendCall::~ToxFriendCall` (lines 151 to 155):
release the output channel stored in `alSource`, then run the base class
destructor. -/
def ToxFriendCall.destruct (c : ToxFriendCall) (d : DevState) : DevState :=
  ToxCall.destruct c.toToxCall (d.unsubscribeOutput c.alSource)

/-- `ToxFriendCall::startTimeout` (lines 157 to 169): if no timer exists,
create one and connect its timeout signal, capturing `callId`; then, if the
timer is not currently active, start it. -/
def ToxFriendCall.startTimeout (c : ToxFriendCall) (callId : Nat) : ToxFriendCall :=
  let t :=
    match c.timeoutTimer with
    | none => { boundId := callId, activeTimer := false : TimeoutTimer }
    | some t => t
  if t.activeTimer then { c with timeoutTimer := some t }
  else { c with timeoutTimer := some { t with activeTimer := true } }

/-- `ToxFriendCall::stopTimeout` (lines 171 to 178): if no timer exists, do
nothing; otherwise stop it and discard it. -/
def ToxFriendCall.stopTimeout (c : ToxFriendCall) : ToxFriendCall :=
  match c.timeoutTimer with
  | none => c
  | some _ => { c with timeoutTimer := none }

/-- Modelled from the spec: one delivery opportunity of the timer scheduling
context.  An active timer fires once (invoking the dispatcher timeout
callback with the bound call identity) and stops counting; an inactive or
absent timer delivers nothing. -/
def ToxFriendCall.timerFireStep (c : ToxFriendCall) : ToxFriendCall × Option Nat :=
  match c.timeoutTimer with
  | none => (c, none)
  | some t =>
    if t.activeTimer then
      ({ c with timeoutTimer := some { t with activeTimer := false } }, some t.boundId)
    else (c, none)

/-- Number of timer fire events over `n` consecutive delivery opportunities. -/
def fireCount (c : ToxFriendCall) : Nat → Nat
  | 0 => 0
  | n + 1 =>
    let p := c.timerFireStep
    (if p.2.isSome then 1 else 0) + fireCount p.1 n

/-- The public operations callable on a live `ToxFriendCall` between
construction and destruction. -/
inductive FriendOp where
  | setActive (value : Bool)
  | setMuteMic (value : Bool)
  | setMuteVol (value : Bool)
  | setVideoEnabled (value : Bool)
  | setNullVideoBitrate (value : Bool)
  | setAlSource (value : Nat)
  | setState (value : Nat)
  | startTimeout (callId : Nat)
  | stopTimeout
  | timerFire
  deriving DecidableEq

/-- Effect of one `FriendOp` on the call and the device service.  The
setters (`ToxCall::setActive` and friends, `ToxFriendCall::setAlSource`,
`ToxFriendCall::setState`) store the value and touch no device; the timer
operations follow the definitions above. -/
def FriendOp.run (op : FriendOp) (s : ToxFriendCall × DevState) :
    ToxFriendCall × DevState :=
  match op with
  | .setActive v => ({ s.1 with active := v }, s.2)
  | .setMuteMic v => ({ s.1 with muteMic := v }, s.2)
  | .setMuteVol v => ({ s.1 with muteVol := v }, s.2)
  | .setVideoEnabled v => ({ s.1 with videoEnabled := v }, s.2)
  | .setNullVideoBitrate v => ({ s.1 with nullVideoBitrate := v }, s.2)
  | .setAlSource v => ({ s.1 with alSource := v }, s.2)
  | .setState v => ({ s.1 with state := v }, s.2)
  | .startTimeout callId => (s.1.startTimeout callId, s.2)
  | .stopTimeout => (s.1.stopTimeout, s.2)
  | .timerFire => (s.1.timerFireStep.1, s.2)

/-- Run a sequence of friend call operations. -/
def runFriendOps : List FriendOp → ToxFriendCall × DevState → ToxFriendCall × DevState
  | [], s => s
  | op :: ops, s => runFriendOps ops (op.run s)

/-- `QMap::find` on the member map: the value stored under key `k`, if any.
Peer identities (`ToxPk`) are modelled as numbers. -/
def peersFind (ps : List (Nat × Nat)) (k : Nat) : Option Nat :=
  (ps.find? (fun p => p.1 == k)).map Prod.snd

/-- `QMap::insert` on the member map: at most one entry per key; inserting
an already present key replaces its value. -/
def peersInsert (ps : List (Nat × Nat)) (k v : Nat) : List (Nat × Nat) :=
  ps.filter (fun p => p.1 != k) ++ [(k, v)]

/-- `QMap::remove` on the member map: drop every entry with key `k`. -/
def peersRemove (ps : List (Nat × Nat)) (k : Nat) : List (Nat × Nat) :=
  ps.filter (fun p => p.1 != k)

/-- The non-const `QMap::operator[]`: the value under key `k`; when `k` is
absent, a default value 0 is inserted and returned. -/
def peersBracket (ps : List (Nat × Nat)) (k : Nat) : List (Nat × Nat) × Nat :=
  match peersFind ps k with
  | some v => (ps, v)
  | none => (ps ++ [(k, 0)], 0)

/-- Group call state from `ToxGroupCall` (`toxcall.cpp` lines 190 to 262):
the member map `peers` keeps one output channel handle per member. -/
structure ToxGroupCall extends ToxCall where
  peers : List (Nat × Nat)
  deriving DecidableEq

/-- The constructor `ToxGroupCall::ToxGroupCall` (lines 190 to 205): video is
always disabled; subscribe the audio input and connect the audio frame
handler (which forwards to the external dispatcher and carries no device
state). -/
def ToxGroupCall.construct (d : DevState) : ToxGroupCall × DevState :=
  ({ videoEnabled := false, peers := [] }, d.subscribeInput)

/-- Release of each member channel, in map order, as done by both
`ToxGroupCall::~ToxGroupCall` and `ToxGroupCall::clearPeers`. -/
def releaseAll : DevState → List (Nat × Nat) → DevState
  | d, [] => d
  | d, p :: ps => releaseAll (d.unsubscribeOutput p.2) ps

/-- The destructor `ToxGroupCall::~ToxGroupCall` (lines 207 to 214): release
every remaining member channel, then run the base class destructor. -/
def ToxGroupCall.destruct (g : ToxGroupCall) (d : DevState) : DevState :=
  ToxCall.destruct g.toToxCall (releaseAll d g.peers)

/-- `ToxGroupCall::removePeer` (lines 216 to 227): if the peer has no entry,
log and return; otherwise release its channel and erase the entry. -/
def ToxGroupCall.removePeer (g : ToxGroupCall) (d : DevState) (peerId : Nat) :
    ToxGroupCall × DevState :=
  match peersFind g.peers peerId with
  | none => (g, d)
  | some v => ({ g with peers := peersRemove g.peers peerId }, d.unsubscribeOutput v)

/-- `ToxGroupCall::addPeer` (lines 229 to 235): acquire a fresh output
channel and insert it under `peerId`. -/
def ToxGroupCall.addPeer (g : ToxGroupCall) (d : DevState) (peerId : Nat) :
    ToxGroupCall × DevState :=
  let p := d.subscribeOutput
  ({ g with peers := peersInsert g.peers peerId p.2 }, p.1)

/-- `ToxGroupCall::havePeer` (lines 237 to 241): membership test on the
member map. -/
def ToxGroupCall.havePeer (g : ToxGroupCall) (peerId : Nat) : Bool :=
  (peersFind g.peers peerId).isSome

/-- `ToxGroupCall::clearPeers` (lines 243 to 252): release every member
channel and empty the map. -/
def ToxGroupCall.clearPeers (g : ToxGroupCall) (d : DevState) :
    ToxGroupCall × DevState :=
  ({ g with peers := [] }, releaseAll d g.peers)

/-- `ToxGroupCall::getAlSource` (lines 254 to 262): for an absent peer, log a
warning and return the sentinel 0; otherwise return the stored handle via
`operator[]`.  The second output component is the returned handle, the third
records whether the warning was logged. -/
def ToxGroupCall.getAlSource (g : ToxGroupCall) (peerId : Nat) :
    ToxGroupCall × Nat × Bool :=
  if g.havePeer peerId then
    let p := peersBracket g.peers peerId
    ({ g with peers := p.1 }, p.2, false)
  else
    (g, 0, true)

/-- The public operations callable on a live `ToxGroupCall` between
construction and destruction (the setters are inherited from `ToxCall`). -/
inductive GroupOp where
  | addPeer (peerId : Nat)
  | removePeer (peerId : Nat)
  | clearPeers
  | havePeer (peerId : Nat)
  | getAlSource (peerId : Nat)
  | setActive (value : Bool)
  | setMuteMic (value : Bool)
  | setMuteVol (value : Bool)
  | setVideoEnabled (value : Bool)
  | setNullVideoBitrate (value : Bool)
  deriving DecidableEq

/-- Effect of one `GroupOp` on the call and the device service. -/
def GroupOp.run (op : GroupOp) (s : ToxGroupCall × DevState) :
    ToxGroupCall × DevState :=
  match op with
  | .addPeer id => s.1.addPeer s.2 id
  | .removePeer id => s.1.removePeer s.2 id
  | .clearPeers => s.1.clearPeers s.2
  | .havePeer _ => s
  | .getAlSource id => ((s.1.getAlSource id).1, s.2)
  | .setActive v => ({ s.1 with active := v }, s.2)
  | .setMuteMic v => ({ s.1 with muteMic := v }, s.2)
  | .setMuteVol v => ({ s.1 with muteVol := v }, s.2)
  | .setVideoEnabled v => ({ s.1 with videoEnabled := v }, s.2)
  | .setNullVideoBitrate v => ({ s.1 with nullVideoBitrate := v }, s.2)

/-- Run a sequence of group call operations. -/
def runGroupOps : List GroupOp → ToxGroupCall × DevState → ToxGroupCall × DevState
  | [], s => s
  | op :: ops, s => runGroupOps ops (op.run s)

/-- A device state with every count zero and fresh handles starting at 1,
used for concrete scenarios. -/
def devZero : DevState :=
  { audioIn := 0, videoIn := 0, nextSource := 1, outAcq := [], outRel := [],
    sinks := 0, cameraConfigured := false }

/-- `startTimeout` only touches the `timeoutTimer` field. -/
theorem ToxFriendCall.startTimeout_toToxCall (c : ToxFriendCall) (callId : Nat) :
    (c.startTimeout callId).toToxCall = c.toToxCall ∧
    (c.startTimeout callId).alSource = c.alSource ∧
    (c.startTimeout callId).state = c.state := by
  unfold ToxFriendCall.startTimeout
  cases c.timeoutTimer <;> dsimp only <;> split <;> exact ⟨rfl, rfl, rfl⟩

/-- `stopTimeout` only touches the `timeoutTimer` field. -/
theorem ToxFriendCall.stopTimeout_toToxCall (c : ToxFriendCall) :
    c.stopTimeout.toToxCall = c.toToxCall ∧
    c.stopTimeout.alSource = c.alSource ∧
    c.stopTimeout.state = c.state := by
  unfold ToxFriendCall.stopTimeout
  cases c.timeoutTimer <;> exact ⟨rfl, rfl, rfl⟩

/-- A timer delivery only touches the `timeoutTimer` field. -/
theorem ToxFriendCall.timerFireStep_toToxCall (c : ToxFriendCall) :
    c.timerFireStep.1.toToxCall = c.toToxCall ∧
    c.timerFireStep.1.alSource = c.alSource ∧
    c.timerFireStep.1.state = c.state := by
  unfold ToxFriendCall.timerFireStep
  cases c.timeoutTimer <;> dsimp only
  · exact ⟨rfl, rfl, rfl⟩
  · split <;> exact ⟨rfl, rfl, rfl⟩

/-- No friend call operation touches the device service state. -/
theorem FriendOp.run_dev (op : FriendOp) (s : ToxFriendCall × DevState) :
    (op.run s).2 = s.2 := by
  cases op <;> rfl

/-- No sequence of friend call operations touches the device service state. -/
theorem runFriendOps_dev (ops : List FriendOp) (s : ToxFriendCall × DevState) :
    (runFriendOps ops s).2 = s.2 := by
  induction ops generalizing s with
  | nil => rfl
  | cons op ops ih => rw [runFriendOps, ih, FriendOp.run_dev]

/-- No friend call operation changes whether the session owns a video sink. -/
theorem FriendOp.run_hasVideoSource (op : FriendOp) (s : ToxFriendCall × DevState) :
    (op.run s).1.hasVideoSource = s.1.hasVideoSource := by
  cases op <;>
    simp only [FriendOp.run] <;>
    first
      | rfl
      | exact congrArg ToxCall.hasVideoSource (ToxFriendCall.startTimeout_toToxCall s.1 _).1
      | exact congrArg ToxCall.hasVideoSource (ToxFriendCall.stopTimeout_toToxCall s.1).1
      | exact congrArg ToxCall.hasVideoSource (ToxFriendCall.timerFireStep_toToxCall s.1).1

/-- No sequence of friend call operations changes sink ownership. -/
theorem runFriendOps_hasVideoSource (ops : List FriendOp) (s : ToxFriendCall × DevState) :
    (runFriendOps ops s).1.hasVideoSource = s.1.hasVideoSource := by
  induction ops generalizing s with
  | nil => rfl
  | cons op ops ih => rw [runFriendOps, ih, FriendOp.run_hasVideoSource]

/-- Whether an operation is the playback channel field setter. -/
def FriendOp.isSetAlSource : FriendOp → Bool
  | .setAlSource _ => true
  | _ => false

/-- An operation other than `setAlSource` preserves the stored channel. -/
theorem FriendOp.run_alSource (op : FriendOp) (s : ToxFriendCall × DevState)
    (h : op.isSetAlSource = false) :
    (op.run s).1.alSource = s.1.alSource := by
  cases op <;>
    simp only [FriendOp.run] <;>
    first
      | rfl
      | exact (ToxFriendCall.startTimeout_toToxCall s.1 _).2.1
      | exact (ToxFriendCall.stopTimeout_toToxCall s.1).2.1
      | exact (ToxFriendCall.timerFireStep_toToxCall s.1).2.1
      | simp [FriendOp.isSetAlSource] at h

/-- A sequence free of `setAlSource` preserves the stored channel. -/
theorem runFriendOps_alSource (ops : List FriendOp) (s : ToxFriendCall × DevState)
    (h : ∀ op ∈ ops, FriendOp.isSetAlSource op = false) :
    (runFriendOps ops s).1.alSource = s.1.alSource := by
  induction ops generalizing s with
  | nil => rfl
  | cons op ops ih =>
    rw [runFriendOps, ih _ (fun o ho => h o (List.mem_cons_of_mem op ho)),
      FriendOp.run_alSource op s (h op (List.mem_cons_self op ops))]

/-- Releasing a list of member channels appends exactly their handles to the
release log. -/
theorem releaseAll_outRel (ps : List (Nat × Nat)) (d : DevState) :
    (releaseAll d ps).outRel = d.outRel ++ ps.map Prod.snd := by
  induction ps generalizing d with
  | nil => simp [releaseAll]
  | cons p ps ih => simp [releaseAll, DevState.unsubscribeOutput, ih]

/-- Releasing member channels touches only the release log. -/
theorem releaseAll_frame (ps : List (Nat × Nat)) (d : DevState) :
    (releaseAll d ps).audioIn = d.audioIn ∧ (releaseAll d ps).videoIn = d.videoIn ∧
    (releaseAll d ps).sinks = d.sinks ∧ (releaseAll d ps).nextSource = d.nextSource ∧
    (releaseAll d ps).outAcq = d.outAcq := by
  induction ps generalizing d with
  | nil => exact ⟨rfl, rfl, rfl, rfl, rfl⟩
  | cons p ps ih => exact ih (d.unsubscribeOutput p.2)

/-- Componentwise effect of the base class destructor on the device state:
the output channel logs are untouched, the audio-input count drops by one,
the camera count drops by one exactly when `videoEnabled` holds at
destruction time, and the sink count drops by one exactly when the session
owns a sink. -/
theorem ToxCall.destruct_components (c : ToxCall) (d : DevState) :
    (c.destruct d).outRel = d.outRel ∧ (c.destruct d).outAcq = d.outAcq ∧
    (c.destruct d).nextSource = d.nextSource ∧
    (c.destruct d).audioIn = d.audioIn - 1 ∧
    (c.destruct d).videoIn = (if c.videoEnabled then d.videoIn - 1 else d.videoIn) ∧
    (c.destruct d).sinks = (if c.hasVideoSource then d.sinks - 1 else d.sinks) := by
  simp only [ToxCall.destruct]
  cases c.videoEnabled <;> cases c.hasVideoSource <;>
    simp [DevState.unsubscribeInput, DevState.cameraUnsubscribe, DevState.destroySink]

/-- Group call operations preserve the audio-input count, the camera count,
the sink count, and never lower the fresh handle counter. -/
theorem GroupOp.run_counts (op : GroupOp) (s : ToxGroupCall × DevState) :
    (op.run s).2.audioIn = s.2.audioIn ∧ (op.run s).2.videoIn = s.2.videoIn ∧
    (op.run s).2.sinks = s.2.sinks ∧ s.2.nextSource ≤ (op.run s).2.nextSource := by
  rcases s with ⟨g, d⟩
  cases op with
  | addPeer id => exact ⟨rfl, rfl, rfl, Nat.le_succ d.nextSource⟩
  | removePeer id =>
    simp only [GroupOp.run, ToxGroupCall.removePeer]
    cases peersFind g.peers id <;> exact ⟨rfl, rfl, rfl, Nat.le_refl _⟩
  | clearPeers =>
    have h := releaseAll_frame g.peers d
    exact ⟨h.1, h.2.1, h.2.2.1, le_of_eq h.2.2.2.1.symm⟩
  | havePeer id => exact ⟨rfl, rfl, rfl, Nat.le_refl _⟩
  | getAlSource id => exact ⟨rfl, rfl, rfl, Nat.le_refl _⟩
  | setActive v => exact ⟨rfl, rfl, rfl, Nat.le_refl _⟩
  | setMuteMic v => exact ⟨rfl, rfl, rfl, Nat.le_refl _⟩
  | setMuteVol v => exact ⟨rfl, rfl, rfl, Nat.le_refl _⟩
  | setVideoEnabled v => exact ⟨rfl, rfl, rfl, Nat.le_refl _⟩
  | setNullVideoBitrate v => exact ⟨rfl, rfl, rfl, Nat.le_refl _⟩

/-- Sequences of group call operations preserve the audio-input count, the
camera count and the sink count. -/
theorem runGroupOps_counts (ops : List GroupOp) (s : ToxGroupCall × DevState) :
    (runGroupOps ops s).2.audioIn = s.2.audioIn ∧
    (runGroupOps ops s).2.videoIn = s.2.videoIn ∧
    (runGroupOps ops s).2.sinks = s.2.sinks := by
  induction ops generalizing s with
  | nil => exact ⟨rfl, rfl, rfl⟩
  | cons op ops ih =>
    have h1 := GroupOp.run_counts op s
    have h2 := ih (op.run s)
    rw [runGroupOps]
    exact ⟨h2.1.trans h1.1, h2.2.1.trans h1.2.1, h2.2.2.trans h1.2.2.1⟩

/-- The peer lookup `getAlSource` leaves the group call state unchanged. -/
theorem ToxGroupCall.getAlSource_state (g : ToxGroupCall) (peerId : Nat) :
    (g.getAlSource peerId).1 = g := by
  simp only [ToxGroupCall.getAlSource]
  cases h : g.havePeer peerId with
  | false => simp [h]
  | true =>
    obtain ⟨v, hv⟩ := Option.isSome_iff_exists.mp h
    simp [h, peersBracket, hv]

/-- After inserting `(k, v)` the map answers `v` for key `k`. -/
theorem peersFind_insert_self (ps : List (Nat × Nat)) (k v : Nat) :
    peersFind (peersInsert ps k v) k = some v := by
  unfold peersFind peersInsert
  rw [List.find?_append, List.find?_eq_none.mpr, Option.none_or]
  · simp
  · intro x hx
    have h := (List.mem_filter.mp hx).2
    simp only [bne] at h
    simpa using h

/-- After removing key `k` the map has no entry for `k`. -/
theorem peersFind_remove_self (ps : List (Nat × Nat)) (k : Nat) :
    peersFind (peersRemove ps k) k = none := by
  unfold peersFind peersRemove
  rw [List.find?_eq_none.mpr]
  · rfl
  · intro x hx
    have h := (List.mem_filter.mp hx).2
    simp only [bne] at h
    simpa using h

/-- A successful lookup comes from an entry of the map. -/
theorem peersFind_mem (ps : List (Nat × Nat)) (k v : Nat)
    (h : peersFind ps k = some v) : ∃ p ∈ ps, p.1 = k ∧ p.2 = v := by
  unfold peersFind at h
  obtain ⟨pr, hf, hsnd⟩ := Option.map_eq_some'.mp h
  exact ⟨pr, List.mem_of_find?_eq_some hf, by simpa using List.find?_some hf, hsnd⟩

/-- After an insert the map holds exactly one entry under the inserted key. -/
theorem peersInsert_single (ps : List (Nat × Nat)) (k v : Nat) :
    ((peersInsert ps k v).filter (fun p => p.1 == k)).length = 1 := by
  unfold peersInsert
  rw [List.filter_append, List.filter_filter]
  have h1 : ps.filter (fun p => p.1 == k && p.1 != k) = [] := by
    simp [bne, Bool.and_not_self]
  rw [h1]
  simp

/-- Every entry of an inserted map is an old entry under a different key or
the new pair. -/
theorem mem_peersInsert (ps : List (Nat × Nat)) (k v : Nat) (p : Nat × Nat)
    (hp : p ∈ peersInsert ps k v) : (p ∈ ps ∧ p.1 ≠ k) ∨ p = (k, v) := by
  unfold peersInsert at hp
  rcases List.mem_append.mp hp with h | h
  · have h2 := List.mem_filter.mp h
    refine Or.inl ⟨h2.1, ?_⟩
    have hb := h2.2
    simp only [bne] at hb
    simpa using hb
  · exact Or.inr (List.mem_singleton.mp h)

/-- One group call operation can neither put a handle below the fresh handle
counter back into the member map nor release it: the orphan stays orphaned
and unreleased. -/
theorem GroupOp.run_orphan (op : GroupOp) (s : ToxGroupCall × DevState) (h0 : Nat)
    (hpe : ∀ p ∈ s.1.peers, p.2 ≠ h0) (hlt : h0 < s.2.nextSource) :
    (∀ p ∈ (op.run s).1.peers, p.2 ≠ h0) ∧ h0 < (op.run s).2.nextSource ∧
    (op.run s).2.outRel.count h0 = s.2.outRel.count h0 := by
  rcases s with ⟨g, d⟩
  cases op with
  | addPeer id =>
    refine ⟨?_, Nat.lt_succ_of_lt hlt, rfl⟩
    intro p hp
    rcases mem_peersInsert g.peers id d.nextSource p hp with ⟨h, _⟩ | h
    · exact hpe p h
    · rw [h]
      exact fun hc => absurd hc.symm (Nat.ne_of_lt hlt)
  | removePeer id =>
    simp only [GroupOp.run, ToxGroupCall.removePeer]
    cases hf : peersFind g.peers id with
    | none => exact ⟨hpe, hlt, rfl⟩
    | some v =>
      obtain ⟨pr, hmem, hk, hv⟩ := peersFind_mem g.peers id v hf
      refine ⟨?_, hlt, ?_⟩
      · intro p hp
        exact hpe p (List.mem_of_mem_filter hp)
      · simp only [DevState.unsubscribeOutput, List.count_append]
        have hne : h0 ∉ [v] := by
          simpa using Ne.symm (hv ▸ hpe pr hmem)
        simp [List.count_eq_zero.mpr hne]
  | clearPeers =>
    have hfr := releaseAll_frame g.peers d
    refine ⟨by intro p hp; simp [GroupOp.run, ToxGroupCall.clearPeers] at hp,
      hfr.2.2.2.1 ▸ hlt, ?_⟩
    have hout := releaseAll_outRel g.peers d
    simp only [GroupOp.run, ToxGroupCall.clearPeers, hout, List.count_append]
    have : (g.peers.map Prod.snd).count h0 = 0 := by
      rw [List.count_eq_zero]
      simp only [List.mem_map, not_exists]
      rintro p ⟨hp, hp2⟩
      exact hpe p hp hp2
    simp [this]
  | havePeer id => exact ⟨hpe, hlt, rfl⟩
  | getAlSource id =>
    refine ⟨?_, hlt, rfl⟩
    simp only [GroupOp.run, ToxGroupCall.getAlSource_state g id]
    exact hpe
  | setActive v => exact ⟨hpe, hlt, rfl⟩
  | setMuteMic v => exact ⟨hpe, hlt, rfl⟩
  | setMuteVol v => exact ⟨hpe, hlt, rfl⟩
  | setVideoEnabled v => exact ⟨hpe, hlt, rfl⟩
  | setNullVideoBitrate v => exact ⟨hpe, hlt, rfl⟩

/-- No sequence of group call operations ever releases an orphaned handle. -/
theorem runGroupOps_orphan (ops : List GroupOp) (s : ToxGroupCall × DevState) (h0 : Nat)
    (hpe : ∀ p ∈ s.1.peers, p.2 ≠ h0) (hlt : h0 < s.2.nextSource) :
    (∀ p ∈ (runGroupOps ops s).1.peers, p.2 ≠ h0) ∧
    h0 < (runGroupOps ops s).2.nextSource ∧
    (runGroupOps ops s).2.outRel.count h0 = s.2.outRel.count h0 := by
  induction ops generalizing s with
  | nil => exact ⟨hpe, hlt, rfl⟩
  | cons op ops ih =>
    have h1 := GroupOp.run_orphan op s h0 hpe hlt
    have h2 := ih (op.run s) h1.1 h1.2.1
    rw [runGroupOps]
    exact ⟨h2.1, h2.2.1, h2.2.2.trans h1.2.2⟩

/-- Group call destruction does not release a handle absent from the member
map. -/
theorem ToxGroupCall.destruct_orphan (g : ToxGroupCall) (d : DevState) (h0 : Nat)
    (hpe : ∀ p ∈ g.peers, p.2 ≠ h0) :
    (g.destruct d).outRel.count h0 = d.outRel.count h0 := by
  unfold ToxGroupCall.destruct
  rw [(ToxCall.destruct_components g.toToxCall (releaseAll d g.peers)).1,
    releaseAll_outRel, List.count_append]
  have : (g.peers.map Prod.snd).count h0 = 0 := by
    rw [List.count_eq_zero]
    simp only [List.mem_map, not_exists]
    rintro p ⟨hp, hp2⟩
    exact hpe p hp hp2
  simp [this]

/-- Componentwise effect of the peer-to-peer call constructor: bump the
audio-input count, acquire the fresh output handle into `alSource`, and, when
video is enabled, create one sink and bump the camera count. -/
theorem ToxFriendCall.construct_components (v : Bool) (d : DevState) :
    (ToxFriendCall.construct v d).2.audioIn = d.audioIn + 1 ∧
    (ToxFriendCall.construct v d).2.videoIn
      = (if v then d.videoIn + 1 else d.videoIn) ∧
    (ToxFriendCall.construct v d).2.sinks = (if v then d.sinks + 1 else d.sinks) ∧
    (ToxFriendCall.construct v d).2.outAcq = d.outAcq ++ [d.nextSource] ∧
    (ToxFriendCall.construct v d).2.outRel = d.outRel ∧
    (ToxFriendCall.construct v d).1.alSource = d.nextSource ∧
    (ToxFriendCall.construct v d).1.videoEnabled = v ∧
    (ToxFriendCall.construct v d).1.hasVideoSource = v := by
  cases v with
  | false =>
    simp [ToxFriendCall.construct, DevState.subscribeInput, DevState.subscribeOutput]
  | true =>
    by_cases hc : d.cameraConfigured = true <;>
      simp [ToxFriendCall.construct, DevState.subscribeInput, DevState.subscribeOutput,
        DevState.newSink, DevState.setupDefault, DevState.cameraSubscribe, hc]

/-- Componentwise effect of the peer-to-peer call destructor: release the
stored channel, drop the audio-input count, and drop the camera count and the
sink count according to the flags at destruction time. -/
theorem ToxFriendCall.destruct_effect (c : ToxFriendCall) (d : DevState) :
    (c.destruct d).audioIn = d.audioIn - 1 ∧
    (c.destruct d).videoIn = (if c.videoEnabled then d.videoIn - 1 else d.videoIn) ∧
    (c.destruct d).sinks = (if c.hasVideoSource then d.sinks - 1 else d.sinks) ∧
    (c.destruct d).outRel = d.outRel ++ [c.alSource] ∧
    (c.destruct d).outAcq = d.outAcq := by
  have h := ToxCall.destruct_components c.toToxCall (d.unsubscribeOutput c.alSource)
  exact ⟨h.2.2.2.1, h.2.2.2.2.1, h.2.2.2.2.2, h.1, h.2.1⟩

/-- Componentwise effect of the group call destructor on the shared input
counts. -/
theorem ToxGroupCall.destruct_counts (g : ToxGroupCall) (d : DevState) :
    (g.destruct d).audioIn = d.audioIn - 1 ∧
    (g.destruct d).videoIn = (if g.videoEnabled then d.videoIn - 1 else d.videoIn) ∧
    (g.destruct d).sinks = (if g.hasVideoSource then d.sinks - 1 else d.sinks) := by
  unfold ToxGroupCall.destruct
  have h := ToxCall.destruct_components g.toToxCall (releaseAll d g.peers)
  have hf := releaseAll_frame g.peers d
  exact ⟨by rw [h.2.2.2.1, hf.1], by rw [h.2.2.2.2.1, hf.2.1],
    by rw [h.2.2.2.2.2, hf.2.2.1]⟩

/-- No group call operation changes whether the session owns a video sink. -/
theorem GroupOp.run_sinkOwnership (op : GroupOp) (s : ToxGroupCall × DevState) :
    (op.run s).1.hasVideoSource = s.1.hasVideoSource := by
  cases op with
  | removePeer id =>
    simp only [GroupOp.run, ToxGroupCall.removePeer]
    cases peersFind s.1.peers id <;> rfl
  | getAlSource id =>
    simp only [GroupOp.run, ToxGroupCall.getAlSource_state]
  | addPeer id => rfl
  | clearPeers => rfl
  | havePeer id => rfl
  | setActive v => rfl
  | setMuteMic v => rfl
  | setMuteVol v => rfl
  | setVideoEnabled v => rfl
  | setNullVideoBitrate v => rfl

/-- No sequence of group call operations changes sink ownership. -/
theorem runGroupOps_hasVideoSource (ops : List GroupOp) (s : ToxGroupCall × DevState) :
    (runGroupOps ops s).1.hasVideoSource = s.1.hasVideoSource := by
  induction ops generalizing s with
  | nil => rfl
  | cons op ops ih => rw [runGroupOps, ih, GroupOp.run_sinkOwnership]

/-- A timer that is absent or not counting down delivers nothing. -/
theorem timerFireStep_of_inactive (c : ToxFriendCall)
    (h : ∀ t, c.timeoutTimer = some t → t.activeTimer = false) :
    c.timerFireStep = (c, none) := by
  unfold ToxFriendCall.timerFireStep
  cases ht : c.timeoutTimer with
  | none => rfl
  | some t => simp [h t ht]

/-- A timer that is absent or not counting down never fires, over any number
of delivery opportunities. -/
theorem fireCount_of_inactive (n : Nat) (c : ToxFriendCall)
    (h : ∀ t, c.timeoutTimer = some t → t.activeTimer = false) :
    fireCount c n = 0 := by
  induction n generalizing c with
  | zero => rfl
  | succ n ih =>
    rw [fireCount, timerFireStep_of_inactive c h]
    simpa using ih c h

/-- Whatever the timer state, at most one fire event is delivered: the
single fire deactivates the timer. -/
theorem fireCount_le_one (n : Nat) (c : ToxFriendCall) : fireCount c n ≤ 1 := by
  induction n generalizing c with
  | zero => exact Nat.zero_le 1
  | succ n ih =>
    cases ht : c.timeoutTimer with
    | none =>
      rw [fireCount, timerFireStep_of_inactive c (by intro t h2; rw [ht] at h2; cases h2)]
      simpa using ih c
    | some t =>
      cases hta : t.activeTimer with
      | false =>
        rw [fireCount, timerFireStep_of_inactive c
          (by intro t2 h2; rw [ht] at h2; cases h2; exact hta)]
        simpa using ih c
      | true =>
        have hs : c.timerFireStep
            = ({ c with timeoutTimer := some { t with activeTimer := false } },
               some t.boundId) := by
          unfold ToxFriendCall.timerFireStep
          simp [ht, hta]
        rw [fireCount, hs]
        have h0 : fireCount
            { c with timeoutTimer := some { t with activeTimer := false } } n = 0 := by
          apply fireCount_of_inactive
          intro t2 h2
          have h3 : t2 = { t with activeTimer := false } := by
            simpa using h2.symm
          rw [h3]
        simp [h0]

/-- Claim C3: destroying a group call releases each remaining member channel
exactly once (the release log is extended by exactly the member handles, the
acquisition log is untouched), and the destructor equals `clearPeers`
followed by the base class cleanup on the device service. -/
theorem C3_group_destructor_equiv (g : ToxGroupCall) (d : DevState) :
    g.destruct d = ToxCall.destruct g.toToxCall (g.clearPeers d).2 ∧
    (g.destruct d).outRel = d.outRel ++ g.peers.map Prod.snd ∧
    (g.destruct d).outAcq = d.outAcq := by
  refine ⟨rfl, ?_, ?_⟩
  · unfold ToxGroupCall.destruct
    rw [(ToxCall.destruct_components _ _).1, releaseAll_outRel]
  · unfold ToxGroupCall.destruct
    rw [(ToxCall.destruct_components _ _).2.1, (releaseAll_frame _ _).2.2.2.2]

/-- Claim C6: immediately after `addPeer(X)` the membership test answers
true, and immediately after `removePeer(X)` it answers false. -/
theorem C6_addPeer_removePeer_havePeer (g : ToxGroupCall) (d : DevState) (x : Nat) :
    (g.addPeer d x).1.havePeer x = true ∧ (g.removePeer d x).1.havePeer x = false := by
  constructor
  · simp [ToxGroupCall.addPeer, ToxGroupCall.havePeer, peersFind_insert_self]
  · simp only [ToxGroupCall.removePeer]
    cases hf : peersFind g.peers x with
    | none => simp [ToxGroupCall.havePeer, hf]
    | some v => simp [ToxGroupCall.havePeer, peersFind_remove_self]

/-- Claim C7: the peer channel lookup on an absent identity logs a warning
and returns the sentinel 0 without failing; on a present identity it returns
the stored handle without warning. -/
theorem C7_getAlSource_sentinel (g : ToxGroupCall) (x : Nat) :
    (g.havePeer x = false → g.getAlSource x = (g, 0, true)) ∧
    (∀ v, peersFind g.peers x = some v → g.getAlSource x = (g, v, false)) := by
  constructor
  · intro h
    simp [ToxGroupCall.getAlSource, h]
  · intro v hv
    have hp : g.havePeer x = true := by simp [ToxGroupCall.havePeer, hv]
    simp [ToxGroupCall.getAlSource, hp, peersBracket, hv]

/-- Claim C9: removing an identity absent from the member map changes
neither the call state nor the device service: the member map is unchanged
and no output channel is released. -/
theorem C9_removePeer_absent_noop (g : ToxGroupCall) (d : DevState) (x : Nat)
    (h : g.havePeer x = false) :
    g.removePeer d x = (g, d) := by
  cases hf : peersFind g.peers x with
  | none => simp [ToxGroupCall.removePeer, hf]
  | some v => simp [ToxGroupCall.havePeer, hf] at h

/-- Claim C10: the peer channel lookup never modifies the group call: the
member map is identical before and after (even for an absent identity, no
entry is inserted) and the device service state is untouched. -/
theorem C10_getAlSource_frame (g : ToxGroupCall) (d : DevState) (x : Nat) :
    (g.getAlSource x).1 = g ∧ GroupOp.run (GroupOp.getAlSource x) (g, d) = (g, d) := by
  refine ⟨ToxGroupCall.getAlSource_state g x, ?_⟩
  simp [GroupOp.run, ToxGroupCall.getAlSource_state]

/-- Claim C1: every call session, peer-to-peer or group, subscribes the
shared audio input exactly once at construction and unsubscribes it exactly
once at destruction: the count sits one above its prior value for the whole
lifetime, whatever operations run in between, and returns to the prior value
after destruction. -/
theorem C1_audio_input_balance (d : DevState) (v : Bool)
    (fops : List FriendOp) (gops : List GroupOp) :
    ((ToxFriendCall.construct v d).2.audioIn = d.audioIn + 1 ∧
      (runFriendOps fops (ToxFriendCall.construct v d)).2.audioIn = d.audioIn + 1 ∧
      (ToxFriendCall.destruct (runFriendOps fops (ToxFriendCall.construct v d)).1
          (runFriendOps fops (ToxFriendCall.construct v d)).2).audioIn = d.audioIn) ∧
    ((ToxGroupCall.construct d).2.audioIn = d.audioIn + 1 ∧
      (runGroupOps gops (ToxGroupCall.construct d)).2.audioIn = d.audioIn + 1 ∧
      (ToxGroupCall.destruct (runGroupOps gops (ToxGroupCall.construct d)).1
          (runGroupOps gops (ToxGroupCall.construct d)).2).audioIn = d.audioIn) := by
  have hfc := (ToxFriendCall.construct_components v d).1
  have hfm : (runFriendOps fops (ToxFriendCall.construct v d)).2
      = (ToxFriendCall.construct v d).2 := runFriendOps_dev fops _
  have hfd := (ToxFriendCall.destruct_effect
      (runFriendOps fops (ToxFriendCall.construct v d)).1
      (runFriendOps fops (ToxFriendCall.construct v d)).2).1
  have hgc : (ToxGroupCall.construct d).2.audioIn = d.audioIn + 1 := rfl
  have hgm := (runGroupOps_counts gops (ToxGroupCall.construct d)).1
  have hgd := (ToxGroupCall.destruct_counts
      (runGroupOps gops (ToxGroupCall.construct d)).1
      (runGroupOps gops (ToxGroupCall.construct d)).2).1
  refine ⟨⟨hfc, ?_, ?_⟩, hgc, ?_, ?_⟩
  · rw [hfm, hfc]
  · rw [hfd, hfm, hfc]
    omega
  · rw [hgm, hgc]
  · rw [hgd, hgm, hgc]
    omega

/-- Claim C8: timer misuse is a safe no-op.  Starting an already counting
timer changes nothing (no second timer, no re-arm); stopping when no timer
exists changes nothing; starting twice in succession causes at most one fire
event over any number of delivery opportunities. -/
theorem C8_timer_misuse_safe :
    (∀ (c : ToxFriendCall) (t : TimeoutTimer) (callId : Nat),
      c.timeoutTimer = some t → t.activeTimer = true → c.startTimeout callId = c) ∧
    (∀ c : ToxFriendCall, c.timeoutTimer = none → c.stopTimeout = c) ∧
    (∀ (c : ToxFriendCall) (callId : Nat) (n : Nat),
      fireCount ((c.startTimeout callId).startTimeout callId) n ≤ 1) := by
  refine ⟨?_, ?_, ?_⟩
  · intro c t callId h ht
    simp only [ToxFriendCall.startTimeout, h, ht, if_true]
    rw [← h]
  · intro c h
    simp only [ToxFriendCall.stopTimeout, h]
  · intro c callId n
    exact fireCount_le_one n _

/-- A freshly constructed peer-to-peer call, used as a concrete input. -/
def friendZero : ToxFriendCall := (ToxFriendCall.construct false devZero).1

/-- The same call with its ring timer armed and counting down. -/
def friendArmed : ToxFriendCall := friendZero.startTimeout 7

/-- Witness for claim C8 at concrete inputs. -/
theorem C8_timer_misuse_witness :
    friendArmed.startTimeout 7 = friendArmed ∧ friendZero.stopTimeout = friendZero ∧
    fireCount ((friendZero.startTimeout 7).startTimeout 7) 3 ≤ 1 :=
  ⟨C8_timer_misuse_safe.1 friendArmed { boundId := 7, activeTimer := true } 7 rfl rfl,
   C8_timer_misuse_safe.2.1 friendZero rfl,
   C8_timer_misuse_safe.2.2 friendZero 7 3⟩

/-- Witness for claim C7: the spec scenario.  After `addPeer(A)`,
`addPeer(B)`, `removePeer(A)`, looking up A returns the sentinel 0 with a
warning and looking up B returns the real handle 2 without warning. -/
theorem C7_getAlSource_sentinel_witness :
    (runGroupOps [GroupOp.addPeer 10, GroupOp.addPeer 20, GroupOp.removePeer 10]
        (ToxGroupCall.construct devZero)).1.getAlSource 10
      = ((runGroupOps [GroupOp.addPeer 10, GroupOp.addPeer 20, GroupOp.removePeer 10]
        (ToxGroupCall.construct devZero)).1, 0, true) ∧
    (runGroupOps [GroupOp.addPeer 10, GroupOp.addPeer 20, GroupOp.removePeer 10]
        (ToxGroupCall.construct devZero)).1.getAlSource 20
      = ((runGroupOps [GroupOp.addPeer 10, GroupOp.addPeer 20, GroupOp.removePeer 10]
        (ToxGroupCall.construct devZero)).1, 2, false) :=
  ⟨(C7_getAlSource_sentinel _ 10).1 (by decide),
   (C7_getAlSource_sentinel _ 20).2 2 (by decide)⟩

/-- Witness for claim C9: removing an identity never added to a fresh group
call leaves call and device untouched. -/
theorem C9_removePeer_absent_noop_witness :
    (ToxGroupCall.construct devZero).1.removePeer (ToxGroupCall.construct devZero).2 99
      = ((ToxGroupCall.construct devZero).1, (ToxGroupCall.construct devZero).2) :=
  C9_removePeer_absent_noop _ _ 99 (by decide)

/-- Counterexample to claim C2 as stated: a session constructed with video
enabled acquires one camera subscription, but after `setVideoEnabled(false)`
the destructor checks the current flag and skips the camera release, so one
video-input subscription outlives destruction instead of zero.  The claim
asserts the balance holds even when `setVideoEnabled` is called between
construction and destruction; it does not. -/
theorem C2_video_balance_counterexample :
    (ToxFriendCall.construct true devZero).2.videoIn = 1 ∧
    (ToxFriendCall.destruct
        (runFriendOps [FriendOp.setVideoEnabled false]
          (ToxFriendCall.construct true devZero)).1
        (runFriendOps [FriendOp.setVideoEnabled false]
          (ToxFriendCall.construct true devZero)).2).videoIn = 1 ∧
    (ToxFriendCall.destruct
        (runFriendOps [FriendOp.setVideoEnabled false]
          (ToxFriendCall.construct true devZero)).1
        (runFriendOps [FriendOp.setVideoEnabled false]
          (ToxFriendCall.construct true devZero)).2).videoIn ≠ devZero.videoIn := by
  refine ⟨rfl, rfl, ?_⟩
  decide

/-- Claim C2 as amended: for a session whose `videoEnabled` flag at
destruction still equals the constructed value, construction with video
creates exactly one video-input subscription and one video sink, both gone
after destruction; construction without video creates neither, at any point
of the lifetime.  Group calls (always without video) never create either. -/
theorem C2_video_balance (d : DevState) (v : Bool)
    (fops : List FriendOp) (gops : List GroupOp)
    (hf : (runFriendOps fops (ToxFriendCall.construct v d)).1.videoEnabled = v)
    (hg : (runGroupOps gops (ToxGroupCall.construct d)).1.videoEnabled = false) :
    ((ToxFriendCall.construct v d).2.videoIn
        = (if v then d.videoIn + 1 else d.videoIn) ∧
      (ToxFriendCall.construct v d).2.sinks = (if v then d.sinks + 1 else d.sinks) ∧
      (runFriendOps fops (ToxFriendCall.construct v d)).2.videoIn
        = (if v then d.videoIn + 1 else d.videoIn) ∧
      (runFriendOps fops (ToxFriendCall.construct v d)).2.sinks
        = (if v then d.sinks + 1 else d.sinks) ∧
      (ToxFriendCall.destruct (runFriendOps fops (ToxFriendCall.construct v d)).1
          (runFriendOps fops (ToxFriendCall.construct v d)).2).videoIn = d.videoIn ∧
      (ToxFriendCall.destruct (runFriendOps fops (ToxFriendCall.construct v d)).1
          (runFriendOps fops (ToxFriendCall.construct v d)).2).sinks = d.sinks) ∧
    ((ToxGroupCall.construct d).2.videoIn = d.videoIn ∧
      (ToxGroupCall.construct d).2.sinks = d.sinks ∧
      (runGroupOps gops (ToxGroupCall.construct d)).2.videoIn = d.videoIn ∧
      (runGroupOps gops (ToxGroupCall.construct d)).2.sinks = d.sinks ∧
      (ToxGroupCall.destruct (runGroupOps gops (ToxGroupCall.construct d)).1
          (runGroupOps gops (ToxGroupCall.construct d)).2).videoIn = d.videoIn ∧
      (ToxGroupCall.destruct (runGroupOps gops (ToxGroupCall.construct d)).1
          (runGroupOps gops (ToxGroupCall.construct d)).2).sinks = d.sinks) := by
  have hc := ToxFriendCall.construct_components v d
  have hm : (runFriendOps fops (ToxFriendCall.construct v d)).2
      = (ToxFriendCall.construct v d).2 := runFriendOps_dev fops _
  have hhs : (runFriendOps fops (ToxFriendCall.construct v d)).1.hasVideoSource = v :=
    (runFriendOps_hasVideoSource fops _).trans hc.2.2.2.2.2.2.2
  have hd := ToxFriendCall.destruct_effect
    (runFriendOps fops (ToxFriendCall.construct v d)).1
    (runFriendOps fops (ToxFriendCall.construct v d)).2
  have hgm := runGroupOps_counts gops (ToxGroupCall.construct d)
  have hghs : (runGroupOps gops (ToxGroupCall.construct d)).1.hasVideoSource = false :=
    runGroupOps_hasVideoSource gops _
  have hgd := ToxGroupCall.destruct_counts
    (runGroupOps gops (ToxGroupCall.construct d)).1
    (runGroupOps gops (ToxGroupCall.construct d)).2
  refine ⟨⟨hc.2.1, hc.2.2.1, ?_, ?_, ?_, ?_⟩, rfl, rfl, ?_, ?_, ?_, ?_⟩
  · rw [hm, hc.2.1]
  · rw [hm, hc.2.2.1]
  · rw [hd.2.1, hf, hm, hc.2.1]
    cases v <;> simp
  · rw [hd.2.2.1, hhs, hm, hc.2.2.1]
    cases v <;> simp
  · exact hgm.2.1
  · exact hgm.2.2
  · rw [hgd.2.1, hg, if_neg Bool.false_ne_true]
    exact hgm.2.1
  · rw [hgd.2.2, hghs, if_neg Bool.false_ne_true]
    exact hgm.2.2

/-- Witness for the amended claim C2 at concrete inputs: a video call that
keeps its flag, with one mute toggle, and a group call with one member. -/
theorem C2_video_balance_witness :
    ((ToxFriendCall.construct true devZero).2.videoIn
        = (if true then devZero.videoIn + 1 else devZero.videoIn) ∧
      (ToxFriendCall.construct true devZero).2.sinks
        = (if true then devZero.sinks + 1 else devZero.sinks) ∧
      (runFriendOps [FriendOp.setMuteMic true]
          (ToxFriendCall.construct true devZero)).2.videoIn
        = (if true then devZero.videoIn + 1 else devZero.videoIn) ∧
      (runFriendOps [FriendOp.setMuteMic true]
          (ToxFriendCall.construct true devZero)).2.sinks
        = (if true then devZero.sinks + 1 else devZero.sinks) ∧
      (ToxFriendCall.destruct
          (runFriendOps [FriendOp.setMuteMic true]
            (ToxFriendCall.construct true devZero)).1
          (runFriendOps [FriendOp.setMuteMic true]
            (ToxFriendCall.construct true devZero)).2).videoIn = devZero.videoIn ∧
      (ToxFriendCall.destruct
          (runFriendOps [FriendOp.setMuteMic true]
            (ToxFriendCall.construct true devZero)).1
          (runFriendOps [FriendOp.setMuteMic true]
            (ToxFriendCall.construct true devZero)).2).sinks = devZero.sinks) ∧
    ((ToxGroupCall.construct devZero).2.videoIn = devZero.videoIn ∧
      (ToxGroupCall.construct devZero).2.sinks = devZero.sinks ∧
      (runGroupOps [GroupOp.addPeer 4] (ToxGroupCall.construct devZero)).2.videoIn
        = devZero.videoIn ∧
      (runGroupOps [GroupOp.addPeer 4] (ToxGroupCall.construct devZero)).2.sinks
        = devZero.sinks ∧
      (ToxGroupCall.destruct
          (runGroupOps [GroupOp.addPeer 4] (ToxGroupCall.construct devZero)).1
          (runGroupOps [GroupOp.addPeer 4]
            (ToxGroupCall.construct devZero)).2).videoIn = devZero.videoIn ∧
      (ToxGroupCall.destruct
          (runGroupOps [GroupOp.addPeer 4] (ToxGroupCall.construct devZero)).1
          (runGroupOps [GroupOp.addPeer 4]
            (ToxGroupCall.construct devZero)).2).sinks = devZero.sinks) :=
  C2_video_balance devZero true [FriendOp.setMuteMic true] [GroupOp.addPeer 4]
    (by decide) (by decide)

/-- Counterexample to claim C4 as stated: after `setAlSource(5)` the
destructor releases the handle 5 now stored in the field, not the channel 1
acquired at construction, so the acquired channel is never released. -/
theorem C4_output_channel_counterexample :
    (ToxFriendCall.construct false devZero).1.alSource = 1 ∧
    (ToxFriendCall.destruct
        (runFriendOps [FriendOp.setAlSource 5]
          (ToxFriendCall.construct false devZero)).1
        (runFriendOps [FriendOp.setAlSource 5]
          (ToxFriendCall.construct false devZero)).2).outRel = [5] ∧
    (ToxFriendCall.destruct
        (runFriendOps [FriendOp.setAlSource 5]
          (ToxFriendCall.construct false devZero)).1
        (runFriendOps [FriendOp.setAlSource 5]
          (ToxFriendCall.construct false devZero)).2).outRel.count 1 = 0 := by
  refine ⟨rfl, rfl, ?_⟩
  decide

/-- Claim C4 as amended: for every sequence of operations that does not
rewrite the stored handle through `setAlSource`, the peer-to-peer call
acquires exactly one output channel at construction (the fresh handle) and
releases exactly that channel, exactly once, at destruction. -/
theorem C4_output_channel_balance (d : DevState) (v : Bool) (fops : List FriendOp)
    (hno : ∀ op ∈ fops, FriendOp.isSetAlSource op = false) :
    (ToxFriendCall.construct v d).1.alSource = d.nextSource ∧
    (ToxFriendCall.construct v d).2.outAcq = d.outAcq ++ [d.nextSource] ∧
    (ToxFriendCall.construct v d).2.outRel = d.outRel ∧
    (runFriendOps fops (ToxFriendCall.construct v d)).2.outAcq
      = d.outAcq ++ [d.nextSource] ∧
    (runFriendOps fops (ToxFriendCall.construct v d)).2.outRel = d.outRel ∧
    (ToxFriendCall.destruct (runFriendOps fops (ToxFriendCall.construct v d)).1
        (runFriendOps fops (ToxFriendCall.construct v d)).2).outRel
      = d.outRel ++ [d.nextSource] ∧
    (ToxFriendCall.destruct (runFriendOps fops (ToxFriendCall.construct v d)).1
        (runFriendOps fops (ToxFriendCall.construct v d)).2).outAcq
      = d.outAcq ++ [d.nextSource] := by
  have hc := ToxFriendCall.construct_components v d
  have hm : (runFriendOps fops (ToxFriendCall.construct v d)).2
      = (ToxFriendCall.construct v d).2 := runFriendOps_dev fops _
  have hal : (runFriendOps fops (ToxFriendCall.construct v d)).1.alSource
      = d.nextSource :=
    (runFriendOps_alSource fops _ hno).trans hc.2.2.2.2.2.1
  have hd := ToxFriendCall.destruct_effect
    (runFriendOps fops (ToxFriendCall.construct v d)).1
    (runFriendOps fops (ToxFriendCall.construct v d)).2
  refine ⟨hc.2.2.2.2.2.1, hc.2.2.2.1, hc.2.2.2.2.1, ?_, ?_, ?_, ?_⟩
  · rw [hm, hc.2.2.2.1]
  · rw [hm, hc.2.2.2.2.1]
  · rw [hd.2.2.2.1, hal, hm, hc.2.2.2.2.1]
  · rw [hd.2.2.2.2, hm, hc.2.2.2.1]

/-- Witness for the amended claim C4 at concrete inputs: one activation
toggle between construction and destruction. -/
theorem C4_output_channel_balance_witness :
    (ToxFriendCall.construct false devZero).1.alSource = devZero.nextSource ∧
    (ToxFriendCall.construct false devZero).2.outAcq
      = devZero.outAcq ++ [devZero.nextSource] ∧
    (ToxFriendCall.construct false devZero).2.outRel = devZero.outRel ∧
    (runFriendOps [FriendOp.setActive true]
        (ToxFriendCall.construct false devZero)).2.outAcq
      = devZero.outAcq ++ [devZero.nextSource] ∧
    (runFriendOps [FriendOp.setActive true]
        (ToxFriendCall.construct false devZero)).2.outRel = devZero.outRel ∧
    (ToxFriendCall.destruct
        (runFriendOps [FriendOp.setActive true]
          (ToxFriendCall.construct false devZero)).1
        (runFriendOps [FriendOp.setActive true]
          (ToxFriendCall.construct false devZero)).2).outRel
      = devZero.outRel ++ [devZero.nextSource] ∧
    (ToxFriendCall.destruct
        (runFriendOps [FriendOp.setActive true]
          (ToxFriendCall.construct false devZero)).1
        (runFriendOps [FriendOp.setActive true]
          (ToxFriendCall.construct false devZero)).2).outAcq
      = devZero.outAcq ++ [devZero.nextSource] :=
  C4_output_channel_balance devZero false [FriendOp.setActive true] (by decide)

/-- Claim C5: calling `addPeer(x)` while `havePeer(x)` already holds
acquires a second output channel subscription without deduplication, the
member map afterwards holds a single entry for `x` bound to the new handle,
the previously stored handle is no longer tracked, and that orphaned
subscription is never released by any subsequent operations (including
`removePeer(x)` and `clearPeers()`) nor by destruction. -/
theorem C5_addPeer_duplicate_orphan (g : ToxGroupCall) (d : DevState) (x h0 : Nat)
    (gops : List GroupOp)
    (hmem : peersFind g.peers x = some h0)
    (huniq : ∀ p ∈ g.peers, p.2 = h0 → p.1 = x)
    (hlt : h0 < d.nextSource) :
    (g.addPeer d x).2.outAcq = d.outAcq ++ [d.nextSource] ∧
    peersFind (g.addPeer d x).1.peers x = some d.nextSource ∧
    ((g.addPeer d x).1.peers.filter (fun p => p.1 == x)).length = 1 ∧
    (∀ p ∈ (g.addPeer d x).1.peers, p.2 ≠ h0) ∧
    (ToxGroupCall.destruct (runGroupOps gops (g.addPeer d x)).1
        (runGroupOps gops (g.addPeer d x)).2).outRel.count h0
      = d.outRel.count h0 := by
  have h4 : ∀ p ∈ (g.addPeer d x).1.peers, p.2 ≠ h0 := by
    intro p hp
    rcases mem_peersInsert g.peers x d.nextSource p hp with ⟨hin, hkey⟩ | hnew
    · intro hc
      exact hkey (huniq p hin hc)
    · rw [hnew]
      exact fun hc => absurd hc.symm (Nat.ne_of_lt hlt)
  have horp := runGroupOps_orphan gops (g.addPeer d x) h0 h4 (Nat.lt_succ_of_lt hlt)
  have hdes := ToxGroupCall.destruct_orphan (runGroupOps gops (g.addPeer d x)).1
      (runGroupOps gops (g.addPeer d x)).2 h0 horp.1
  refine ⟨rfl, peersFind_insert_self g.peers x d.nextSource,
    peersInsert_single g.peers x d.nextSource, h4, ?_⟩
  rw [hdes, horp.2.2]
  rfl

/-- A group call with one member, peer 3 holding channel 1, used as a
concrete input. -/
def groupOne : ToxGroupCall × DevState :=
  runGroupOps [GroupOp.addPeer 3] (ToxGroupCall.construct devZero)

/-- Witness for claim C5 at concrete inputs: duplicate `addPeer(3)` on a
group already holding peer 3 with channel 1, followed by `removePeer(3)` and
`clearPeers()` and destruction: channel 1 is never released. -/
theorem C5_addPeer_duplicate_orphan_witness :
    (groupOne.1.addPeer groupOne.2 3).2.outAcq
      = groupOne.2.outAcq ++ [groupOne.2.nextSource] ∧
    peersFind (groupOne.1.addPeer groupOne.2 3).1.peers 3
      = some groupOne.2.nextSource ∧
    ((groupOne.1.addPeer groupOne.2 3).1.peers.filter (fun p => p.1 == 3)).length
      = 1 ∧
    (∀ p ∈ (groupOne.1.addPeer groupOne.2 3).1.peers, p.2 ≠ 1) ∧
    (ToxGroupCall.destruct
        (runGroupOps [GroupOp.removePeer 3, GroupOp.clearPeers]
          (groupOne.1.addPeer groupOne.2 3)).1
        (runGroupOps [GroupOp.removePeer 3, GroupOp.clearPeers]
          (groupOne.1.addPeer groupOne.2 3)).2).outRel.count 1
      = groupOne.2.outRel.count 1 :=
  C5_addPeer_duplicate_orphan groupOne.1 groupOne.2 3 1
    [GroupOp.removePeer 3, GroupOp.clearPeers] (by decide) (by decide) (by decide)
